import Mathlib

/-!
# Chrono: contact container row count, parallel LCP solver configuration,
# steepest-descent strategy bookkeeping and 4WD driveline assembly

A shallow embedding of

* `physics/ChContactContainer.h`                      (`GetNcontacts`, `GetDOC_d`),
* `chrono_parallel/ChLcpSolverParallel.h`             (constructors and setters),
* `chrono_parallel/solver/ChSolverSD.h`               (`ChSolverSD::Solve`),
* `subsys/driveline/ChShaftsDriveline4WD.cpp`         (`Initialize`, `GetWheelTorque`).

Conventions.

* `int` is a 32-bit two's complement integer: values are `Int`s and the result
  of every arithmetic operation is reduced by `wrapInt`.
* `uint` is a 32-bit unsigned integer, `Fin 4294967296`; its addition is
  addition modulo `2^32`.
* `real` (a floating-point type in the sources) is idealised as `ℚ` wherever a
  value is only assigned from a literal, copied or negated.  The value that
  passes through `fabs` into the data manager's recovery speed is an `fp_real`,
  which adds the infinities and not-a-number to the numbers.
* Heap objects created with `new` are represented by an identity (a natural
  number) in an explicit `Heap`; `delete` removes the identity from the live
  set, and a pointer is `none` (null) or `some id`.
-/

set_option linter.dupNamespace false

namespace chrono

/-! ## Machine types -/

/-- Largest value of a C++ `int`. -/
def INT_MAX : Int := 2147483647

/-- Smallest value of a C++ `int`. -/
def INT_MIN : Int := -2147483648

/-- Reduction of a mathematical integer to the 32-bit two's complement range. -/
def wrapInt (z : Int) : Int := (z + 2147483648) % 4294967296 - 2147483648

/-- The C++ type `uint`. -/
abbrev uint := Fin 4294967296

/-- The type `real` of the parallel module, idealised. -/
abbrev real := ℚ

/-- A value of the floating-point type `real` together with its special values:
a number, an infinity (`inf true` is minus infinity) or not-a-number. -/
inductive fp_real
  | num (q : ℚ)
  | inf (negative : Bool)
  | nan
  deriving DecidableEq, Repr

namespace fp_real

/-- The comparison `x <= y` of two floating-point values; it is false as soon as
one of them is not-a-number. -/
def le : fp_real → fp_real → Bool
  | num a, num b => decide (a ≤ b)
  | num _, inf negative => !negative
  | inf negative, num _ => negative
  | inf a, inf b => a || !b
  | nan, _ => false
  | _, nan => false

end fp_real

/-- The C library function `fabs`: the sign is cleared, and not-a-number stays
not-a-number. -/
def fabs : fp_real → fp_real
  | fp_real.num q => fp_real.num |q|
  | fp_real.inf _ => fp_real.inf false
  | fp_real.nan => fp_real.nan

/-! ## `ChContactContainer` -/

/-- The two counters of `ChContactContainer` (the lists themselves and their
iterators are not read by the functions embedded here). -/
structure ChContactContainer where
  n_added : Int
  n_added_roll : Int
  deriving DecidableEq, Repr

namespace ChContactContainer

/-- `virtual int GetNcontacts() {return n_added + n_added_roll;}`;
the second component is the container after the call. -/
def GetNcontacts (c : ChContactContainer) : Int × ChContactContainer :=
  (wrapInt (c.n_added + c.n_added_roll), c)

/-- `virtual int GetDOC_d() {return (n_added * 3) + (n_added_roll * 6);}`;
the second component is the container after the call. -/
def GetDOC_d (c : ChContactContainer) : Int × ChContactContainer :=
  (wrapInt (wrapInt (c.n_added * 3) + wrapInt (c.n_added_roll * 6)), c)

end ChContactContainer

/-! ## Strategy objects and the heap -/

/-- The method identifiers compared in `SetSolverType` (values of the enum
`GPUSOLVERTYPE`). -/
inductive GPUSOLVERTYPE
  | STEEPEST_DESCENT
  | GRADIENT_DESCENT
  | CONJUGATE_GRADIENT
  | CONJUGATE_GRADIENT_SQUARED
  | BICONJUGATE_GRADIENT
  | BICONJUGATE_GRADIENT_STAB
  | MINIMUM_RESIDUAL
  | QUASAI_MINIMUM_RESIDUAL
  | APGD
  | APGDRS
  deriving DecidableEq, Repr

/-- The dynamic type of a strategy object: the subclasses of `ChSolverParallel`
instantiated in `ChLcpSolverParallel.h`. -/
inductive ChSolverParallel
  | ChSolverSD
  | ChSolverGD
  | ChSolverCG
  | ChSolverCGS
  | ChSolverBiCG
  | ChSolverBiCGStab
  | ChSolverMinRes
  | ChSolverAPGD
  | ChSolverAPGDRS
  deriving DecidableEq, Repr

/-- The strategy objects that currently exist.  `next` is the identity the next
`new` hands out; `live` lists the objects created and not yet deleted. -/
structure Heap where
  next : Nat
  live : List (Nat × ChSolverParallel)
  deriving DecidableEq, Repr

namespace Heap

/-- `new C()`: a new object of class `C` with an identity never used before. -/
def new (h : Heap) (C : ChSolverParallel) : Nat × Heap :=
  (h.next, { next := h.next + 1, live := (h.next, C) :: h.live })

/-- `delete p`: the object `p` stops existing.  (Deleting an identity that is
not live is undefined in C++; here it leaves the live set as it is.) -/
def delete (h : Heap) (p : Nat) : Heap :=
  { h with live := h.live.filter (fun o => o.1 != p) }

/-- Does the pointer value `p` refer to an existing object? -/
def isLive (h : Heap) (p : Nat) : Bool :=
  h.live.any (fun o => o.1 == p)

/-- The class of the object `p` refers to, if it exists. -/
def classOf (h : Heap) (p : Nat) : Option ChSolverParallel :=
  (h.live.find? (fun o => o.1 == p)).map (fun o => o.2)

/-- Every live identity was handed out by an earlier `new`. -/
def wf (h : Heap) : Prop := ∀ o ∈ h.live, o.1 < h.next

end Heap

/-! ## The shared data manager -/

/-- The two vectors of `host_data` read and written by `ChSolverSD::Solve`. -/
structure host_container where
  rhs_data : List real
  gamma_data : List real
  deriving DecidableEq, Repr

/-- The members of `ChParallelDataManager` accessed by the embedded functions. -/
structure ChParallelDataManager where
  host_data : host_container
  alpha : real
  contact_recovery_speed : fp_real
  deriving DecidableEq, Repr

/-! ## `ChLcpSolverParallel` and `ChLcpSolverParallelDVI` -/

/-- A `ChLcpSolverParallelDVI` object: the members of `ChLcpIterativeSolver`
assigned by the constructors (`record_violation_history`, `warm_start`), the
members of `ChLcpSolverParallel`, and the members of `ChLcpSolverParallelDVI`.
`data_container` and `solver` are pointers: `none` is a pointer that refers to
no object, `some` holds the data manager pointed to, respectively the identity
of the strategy object.  The members `bilateral` and `rigid_rigid` are not
touched by the embedded functions. -/
structure ChLcpSolverParallelDVI where
  record_violation_history : Bool
  warm_start : Bool
  data_container : Option ChParallelDataManager
  tolerance : real
  residual : real
  max_iter_bilateral : uint
  solver : Option Nat
  solver_type : GPUSOLVERTYPE
  alpha : real
  contact_recovery_speed : real
  do_stab : Bool
  collision_inside : Bool
  update_rhs : Bool
  max_iteration : uint
  max_iter_normal : uint
  max_iter_sliding : uint
  max_iter_spinning : uint
  deriving DecidableEq, Repr

namespace ChLcpSolverParallel

/-- Constructor body of `ChLcpSolverParallel`, applied to the object's storage
`raw`; members it does not assign keep what the storage held. -/
def ChLcpSolverParallel (raw : ChLcpSolverParallelDVI) : ChLcpSolverParallelDVI :=
  { raw with
    tolerance := 1e-7
    max_iter_bilateral := 100
    record_violation_history := true
    warm_start := false }

/-- `void SetTolerance(real tol) { tolerance = tol; }` -/
def SetTolerance (tol : real) (s : ChLcpSolverParallelDVI) : ChLcpSolverParallelDVI :=
  { s with tolerance := tol }

/-- `void SetMaxIterationBilateral(uint max_iter) { max_iter_bilateral = max_iter; }` -/
def SetMaxIterationBilateral (max_iter : uint) (s : ChLcpSolverParallelDVI) :
    ChLcpSolverParallelDVI :=
  { s with max_iter_bilateral := max_iter }

/-- `real GetResidual() { return residual; }` -/
def GetResidual (s : ChLcpSolverParallelDVI) : real := s.residual

end ChLcpSolverParallel

namespace ChLcpSolverParallelDVI

/-- Constructor of `ChLcpSolverParallelDVI`: the base constructor runs first,
then the body, whose last statement is `solver = new ChSolverAPGD();`. -/
def ChLcpSolverParallelDVI (raw : ChLcpSolverParallelDVI) (h : Heap) :
    chrono.ChLcpSolverParallelDVI × Heap :=
  let s := ChLcpSolverParallel.ChLcpSolverParallel raw
  let s := { s with
    alpha := 0.2
    contact_recovery_speed := 0.6
    do_stab := false
    collision_inside := false
    update_rhs := false }
  let s := { s with max_iteration := 1000 }
  let s := { s with max_iter_spinning := 100 }
  let s := { s with max_iter_sliding := s.max_iter_spinning }
  let s := { s with max_iter_normal := s.max_iter_sliding }
  let a := h.new ChSolverParallel.ChSolverAPGD
  ({ s with solver := some a.1 }, a.2)

/-- `void SetCompliance(real a) { data_container->alpha = a; }`;
`none` when `data_container` refers to no data manager. -/
def SetCompliance (a : real) (s : chrono.ChLcpSolverParallelDVI) :
    Option chrono.ChLcpSolverParallelDVI :=
  match s.data_container with
  | none => none
  | some d => some { s with data_container := some { d with alpha := a } }

/-- `SetSolverType(GPUSOLVERTYPE type)`: record the identifier, delete the
strategy object if the pointer is not null, then walk the chain of comparisons.
The branch of `QUASAI_MINIMUM_RESIDUAL` is empty in the source (its body is a
comment, "This solver has not been implemented yet"). -/
def SetSolverType (type : GPUSOLVERTYPE) (s : chrono.ChLcpSolverParallelDVI) (h : Heap) :
    chrono.ChLcpSolverParallelDVI × Heap :=
  let s := { s with solver_type := type }
  let h := match s.solver with
    | some p => h.delete p
    | none => h
  if s.solver_type = GPUSOLVERTYPE.STEEPEST_DESCENT then
    let a := h.new ChSolverParallel.ChSolverSD
    ({ s with solver := some a.1 }, a.2)
  else if s.solver_type = GPUSOLVERTYPE.GRADIENT_DESCENT then
    let a := h.new ChSolverParallel.ChSolverGD
    ({ s with solver := some a.1 }, a.2)
  else if s.solver_type = GPUSOLVERTYPE.CONJUGATE_GRADIENT then
    let a := h.new ChSolverParallel.ChSolverCG
    ({ s with solver := some a.1 }, a.2)
  else if s.solver_type = GPUSOLVERTYPE.CONJUGATE_GRADIENT_SQUARED then
    let a := h.new ChSolverParallel.ChSolverCGS
    ({ s with solver := some a.1 }, a.2)
  else if s.solver_type = GPUSOLVERTYPE.BICONJUGATE_GRADIENT then
    let a := h.new ChSolverParallel.ChSolverBiCG
    ({ s with solver := some a.1 }, a.2)
  else if s.solver_type = GPUSOLVERTYPE.BICONJUGATE_GRADIENT_STAB then
    let a := h.new ChSolverParallel.ChSolverBiCGStab
    ({ s with solver := some a.1 }, a.2)
  else if s.solver_type = GPUSOLVERTYPE.MINIMUM_RESIDUAL then
    let a := h.new ChSolverParallel.ChSolverMinRes
    ({ s with solver := some a.1 }, a.2)
  else if s.solver_type = GPUSOLVERTYPE.QUASAI_MINIMUM_RESIDUAL then
    (s, h)
  else if s.solver_type = GPUSOLVERTYPE.APGD then
    let a := h.new ChSolverParallel.ChSolverAPGD
    ({ s with solver := some a.1 }, a.2)
  else if s.solver_type = GPUSOLVERTYPE.APGDRS then
    let a := h.new ChSolverParallel.ChSolverAPGDRS
    ({ s with solver := some a.1 }, a.2)
  else
    (s, h)

/-- `void SetMaxIterationNormal(uint max_iter) { max_iter_normal = max_iter; }` -/
def SetMaxIterationNormal (max_iter : uint) (s : chrono.ChLcpSolverParallelDVI) :
    chrono.ChLcpSolverParallelDVI :=
  { s with max_iter_normal := max_iter }

/-- `void SetMaxIterationSliding(uint max_iter) { max_iter_sliding = max_iter; }` -/
def SetMaxIterationSliding (max_iter : uint) (s : chrono.ChLcpSolverParallelDVI) :
    chrono.ChLcpSolverParallelDVI :=
  { s with max_iter_sliding := max_iter }

/-- `void SetMaxIterationSpinning(uint max_iter) { max_iter_spinning = max_iter; }` -/
def SetMaxIterationSpinning (max_iter : uint) (s : chrono.ChLcpSolverParallelDVI) :
    chrono.ChLcpSolverParallelDVI :=
  { s with max_iter_spinning := max_iter }

/-- `SetMaxIteration(uint max_iter)`: `max_iteration = max_iter;` followed by the
chained assignment, evaluated right to left,
`max_iter_normal = max_iter_sliding = max_iter_spinning = max_iter_bilateral = max_iter;` -/
def SetMaxIteration (max_iter : uint) (s : chrono.ChLcpSolverParallelDVI) :
    chrono.ChLcpSolverParallelDVI :=
  let s := { s with max_iteration := max_iter }
  let s := { s with max_iter_bilateral := max_iter }
  let s := { s with max_iter_spinning := s.max_iter_bilateral }
  let s := { s with max_iter_sliding := s.max_iter_spinning }
  { s with max_iter_normal := s.max_iter_sliding }

/-- `SetContactRecoverySpeed(real recovery_speed)`:
`data_container->contact_recovery_speed = fabs(recovery_speed);`;
`none` when `data_container` refers to no data manager. -/
def SetContactRecoverySpeed (recovery_speed : fp_real) (s : chrono.ChLcpSolverParallelDVI) :
    Option chrono.ChLcpSolverParallelDVI :=
  match s.data_container with
  | none => none
  | some d =>
    some { s with data_container := some { d with contact_recovery_speed := fabs recovery_speed } }

/-- `void DoStabilization(bool stab) { do_stab = stab; }` -/
def DoStabilization (stab : Bool) (s : chrono.ChLcpSolverParallelDVI) :
    chrono.ChLcpSolverParallelDVI :=
  { s with do_stab := stab }

/-- `void DoCollision(bool do_collision) { collision_inside = do_collision; }` -/
def DoCollision (do_collision : Bool) (s : chrono.ChLcpSolverParallelDVI) :
    chrono.ChLcpSolverParallelDVI :=
  { s with collision_inside := do_collision }

/-- `void DoUpdateRHS(bool do_update_rhs) { update_rhs = do_update_rhs; }` -/
def DoUpdateRHS (do_update_rhs : Bool) (s : chrono.ChLcpSolverParallelDVI) :
    chrono.ChLcpSolverParallelDVI :=
  { s with update_rhs := do_update_rhs }

/-- The minimum of the four category caps and the global cap. -/
def iterationBudget (s : chrono.ChLcpSolverParallelDVI) : uint :=
  min (min (min (min s.max_iter_normal s.max_iter_sliding) s.max_iter_spinning)
    s.max_iter_bilateral) s.max_iteration

/-- Storage of a solver object before its constructor has run, all bytes zero. -/
def zeroed : chrono.ChLcpSolverParallelDVI where
  record_violation_history := false
  warm_start := false
  data_container := none
  tolerance := 0
  residual := 0
  max_iter_bilateral := 0
  solver := none
  solver_type := GPUSOLVERTYPE.STEEPEST_DESCENT
  alpha := 0
  contact_recovery_speed := 0
  do_stab := false
  collision_inside := false
  update_rhs := false
  max_iteration := 0
  max_iter_normal := 0
  max_iter_sliding := 0
  max_iter_spinning := 0

/-- A solver constructed in zeroed storage while no strategy object exists yet,
together with the heap after construction. -/
def constructed : chrono.ChLcpSolverParallelDVI × Heap :=
  ChLcpSolverParallelDVI zeroed ⟨0, []⟩

end ChLcpSolverParallelDVI

/-- The strategy class the claim pairs with each implemented identifier; the
placeholder has none. -/
def strategyFor : GPUSOLVERTYPE → Option ChSolverParallel
  | GPUSOLVERTYPE.STEEPEST_DESCENT => some ChSolverParallel.ChSolverSD
  | GPUSOLVERTYPE.GRADIENT_DESCENT => some ChSolverParallel.ChSolverGD
  | GPUSOLVERTYPE.CONJUGATE_GRADIENT => some ChSolverParallel.ChSolverCG
  | GPUSOLVERTYPE.CONJUGATE_GRADIENT_SQUARED => some ChSolverParallel.ChSolverCGS
  | GPUSOLVERTYPE.BICONJUGATE_GRADIENT => some ChSolverParallel.ChSolverBiCG
  | GPUSOLVERTYPE.BICONJUGATE_GRADIENT_STAB => some ChSolverParallel.ChSolverBiCGStab
  | GPUSOLVERTYPE.MINIMUM_RESIDUAL => some ChSolverParallel.ChSolverMinRes
  | GPUSOLVERTYPE.QUASAI_MINIMUM_RESIDUAL => none
  | GPUSOLVERTYPE.APGD => some ChSolverParallel.ChSolverAPGD
  | GPUSOLVERTYPE.APGDRS => some ChSolverParallel.ChSolverAPGDRS

/-! ## `ChSolverSD` -/

/-- The members of a `ChSolverSD` object used by `Solve`.  They are inherited
from `ChSolverParallel`; the counters are taken to be `uint`, the type of the
budget, dimension and result of `SolveSD`.  `data_container` is a pointer as
above. -/
structure ChSolverSD where
  data_container : Option ChParallelDataManager
  num_constraints : uint
  max_iteration : uint
  total_iteration : uint
  current_iteration : uint
  deriving DecidableEq, Repr

namespace ChSolverSD

/-- `ChSolverSD::Solve`.  `SolveSD` is only declared in the header,
`uint SolveSD(const uint max_iter, const uint size, const custom_vector<real>& b,
custom_vector<real>& x)`; it enters as a parameter mapping budget, dimension,
right-hand side and unknowns to the returned count and the updated unknowns.
`none` when the solve dereferences a `data_container` that refers to no data
manager. -/
def Solve (SolveSD : uint → uint → List real → List real → uint × List real)
    (s : ChSolverSD) : Option ChSolverSD :=
  if s.num_constraints = 0 then some s
  else
    match s.data_container with
    | none => none
    | some d =>
      let r := SolveSD s.max_iteration s.num_constraints d.host_data.rhs_data
        d.host_data.gamma_data
      let s := { s with
        data_container := some { d with host_data := { d.host_data with gamma_data := r.2 } }
        total_iteration := s.total_iteration + r.1 }
      some { s with current_iteration := s.total_iteration }

/-- A stand-in for `SolveSD` that reports `min max_iter 7` iterations and sets
every unknown to zero. -/
def sevenSweeps (max_iter _size : uint) (_b x : List real) : uint × List real :=
  (min max_iter 7, x.map (fun _ => 0))

/-- A data manager with two constraint rows. -/
def twoRows : ChParallelDataManager where
  host_data := { rhs_data := [1, 2], gamma_data := [3, 4] }
  alpha := 0
  contact_recovery_speed := fp_real.num 0

end ChSolverSD

namespace ChLcpSolverParallelDVI

/-- The constructed solver with its `data_container` pointing to `twoRows`. -/
def attached : chrono.ChLcpSolverParallelDVI :=
  { constructed.1 with data_container := some ChSolverSD.twoRows }

end ChLcpSolverParallelDVI

/-! ## `ChShaftsDriveline4WD` -/

/-- The two sides of an axle. -/
inductive ChVehicleSide
  | LEFT
  | RIGHT
  deriving DecidableEq, Repr

/-- The shared-pointer members of `ChShaftsDriveline4WD` used by `Initialize`. -/
inductive Member
  | m_driveshaft
  | m_front_shaft
  | m_rear_shaft
  | m_central_differential
  | m_rear_differentialbox
  | m_rear_conicalgear
  | m_rear_differential
  | m_front_differentialbox
  | m_front_conicalgear
  | m_front_differential
  deriving DecidableEq, Repr

/-- The classes of the constraint primitives constructed by `Initialize`. -/
inductive ChPrimitive
  | ChShaft
  | ChShaftsPlanetary
  | ChShaftsGearboxAngled
  deriving DecidableEq, Repr

/-- The virtual getters whose values `Initialize` passes on. -/
inductive Parameter
  | GetDriveshaftInertia
  | GetToFrontDiffShaftInertia
  | GetToRearDiffShaftInertia
  | GetCentralDifferentialRatio
  | GetRearDifferentialBoxInertia
  | GetRearConicalGearRatio
  | GetRearDifferentialRatio
  | GetFrontConicalGearRatio
  | GetFrontDifferentialRatio
  deriving DecidableEq, Repr

/-- An argument of one of the `Initialize` calls on a primitive: the value of a
shared pointer (`none` is null), an axle of a suspension, the chassis, or one of
the two direction vectors. -/
inductive Arg
  | object (p : Option Nat)
  | axle (suspension : Nat) (side : ChVehicleSide)
  | chassis
  | m_dir_motor_block
  | m_dir_axle
  deriving DecidableEq, Repr

/-- A member function invoked on a primitive. -/
inductive Call
  | SetInertia (v : Parameter)
  | SetTransmissionRatio (v : Parameter)
  | SetTransmissionRatioOrdinary (v : Parameter)
  | Initialize (args : List Arg)
  deriving DecidableEq, Repr

/-- What stops `Initialize`: `operator->` (or `ChSystem::Add`) applied to a
member whose pointer is null. -/
inductive Fault
  | null_dereference (m : Member)
  deriving DecidableEq, Repr

/-- The shared pointers of a `ChShaftsDriveline4WD`; `none` is the null pointer
a default-constructed `ChSharedPtr` holds. -/
structure ChShaftsDriveline4WD where
  m_driveshaft : Option Nat
  m_front_shaft : Option Nat
  m_rear_shaft : Option Nat
  m_central_differential : Option Nat
  m_rear_differentialbox : Option Nat
  m_rear_conicalgear : Option Nat
  m_rear_differential : Option Nat
  m_front_differentialbox : Option Nat
  m_front_conicalgear : Option Nat
  m_front_differential : Option Nat
  deriving DecidableEq, Repr

/-- The driveline together with what `Initialize` acts on: the primitives
constructed so far (identity and class), the member functions invoked on
primitives in execution order, and the items added to `my_system` in order. -/
structure Assembly where
  driveline : ChShaftsDriveline4WD
  next : Nat
  objects : List (Nat × ChPrimitive)
  calls : List (Nat × Call)
  my_system : List Nat
  deriving DecidableEq, Repr

namespace ChShaftsDriveline4WD

/-- The driveline right after its constructor: every shared pointer is null. -/
def ChShaftsDriveline4WD : chrono.ChShaftsDriveline4WD where
  m_driveshaft := none
  m_front_shaft := none
  m_rear_shaft := none
  m_central_differential := none
  m_rear_differentialbox := none
  m_rear_conicalgear := none
  m_rear_differential := none
  m_front_differentialbox := none
  m_front_conicalgear := none
  m_front_differential := none

/-- Value of the member `m`. -/
def get (d : chrono.ChShaftsDriveline4WD) : Member → Option Nat
  | Member.m_driveshaft => d.m_driveshaft
  | Member.m_front_shaft => d.m_front_shaft
  | Member.m_rear_shaft => d.m_rear_shaft
  | Member.m_central_differential => d.m_central_differential
  | Member.m_rear_differentialbox => d.m_rear_differentialbox
  | Member.m_rear_conicalgear => d.m_rear_conicalgear
  | Member.m_rear_differential => d.m_rear_differential
  | Member.m_front_differentialbox => d.m_front_differentialbox
  | Member.m_front_conicalgear => d.m_front_conicalgear
  | Member.m_front_differential => d.m_front_differential

/-- Assignment to the member `m`. -/
def set (d : chrono.ChShaftsDriveline4WD) (m : Member) (p : Option Nat) :
    chrono.ChShaftsDriveline4WD :=
  match m with
  | Member.m_driveshaft => { d with m_driveshaft := p }
  | Member.m_front_shaft => { d with m_front_shaft := p }
  | Member.m_rear_shaft => { d with m_rear_shaft := p }
  | Member.m_central_differential => { d with m_central_differential := p }
  | Member.m_rear_differentialbox => { d with m_rear_differentialbox := p }
  | Member.m_rear_conicalgear => { d with m_rear_conicalgear := p }
  | Member.m_rear_differential => { d with m_rear_differential := p }
  | Member.m_front_differentialbox => { d with m_front_differentialbox := p }
  | Member.m_front_conicalgear => { d with m_front_conicalgear := p }
  | Member.m_front_differential => { d with m_front_differential := p }

/-- `m = ChSharedPtr<C>(new C);` -/
def construct (m : Member) (C : ChPrimitive) (w : Assembly) : Assembly :=
  { w with
    driveline := set w.driveline m (some w.next)
    next := w.next + 1
    objects := w.objects ++ [(w.next, C)] }

/-- `m->call(...)`: a fault when `m` is null, else the call is made on the
primitive `m` points to. -/
def invoke (m : Member) (c : Call) (w : Assembly) : Except Fault Assembly :=
  match get w.driveline m with
  | none => Except.error (Fault.null_dereference m)
  | some p => Except.ok { w with calls := w.calls ++ [(p, c)] }

/-- `my_system->Add(m);` (`ChSystem::Add` inspects the dynamic type of the item
it is given, so a null item is a fault as well). -/
def Add (m : Member) (w : Assembly) : Except Fault Assembly :=
  match get w.driveline m with
  | none => Except.error (Fault.null_dereference m)
  | some p => Except.ok { w with my_system := w.my_system ++ [p] }

/-- The shared pointer held by `m`, passed as an argument. -/
def arg (w : Assembly) (m : Member) : Arg := Arg.object (get w.driveline m)

/-- `ChShaftsDriveline4WD::Initialize(chassis, suspensions)`, statement by
statement, for arguments that satisfy the assertions at its head. -/
def Initialize (w : Assembly) : Except Fault Assembly := do
  let w := construct Member.m_driveshaft ChPrimitive.ChShaft w
  let w ← invoke Member.m_driveshaft (Call.SetInertia Parameter.GetDriveshaftInertia) w
  let w ← Add Member.m_driveshaft w
  let w := construct Member.m_front_shaft ChPrimitive.ChShaft w
  let w ← invoke Member.m_front_shaft (Call.SetInertia Parameter.GetToFrontDiffShaftInertia) w
  let w ← Add Member.m_front_shaft w
  let w := construct Member.m_rear_shaft ChPrimitive.ChShaft w
  let w ← invoke Member.m_rear_shaft (Call.SetInertia Parameter.GetToRearDiffShaftInertia) w
  let w ← Add Member.m_rear_shaft w
  let w := construct Member.m_central_differential ChPrimitive.ChShaftsPlanetary w
  let w ← invoke Member.m_central_differential
    (Call.Initialize [arg w Member.m_driveshaft, arg w Member.m_rear_shaft,
      arg w Member.m_front_shaft]) w
  let w ← invoke Member.m_rear_differential
    (Call.SetTransmissionRatioOrdinary Parameter.GetCentralDifferentialRatio) w
  let w ← Add Member.m_rear_differential w
  let w := construct Member.m_rear_differentialbox ChPrimitive.ChShaft w
  let w ← invoke Member.m_rear_differentialbox
    (Call.SetInertia Parameter.GetRearDifferentialBoxInertia) w
  let w ← Add Member.m_rear_differentialbox w
  let w := construct Member.m_rear_conicalgear ChPrimitive.ChShaftsGearboxAngled w
  let w ← invoke Member.m_rear_conicalgear
    (Call.Initialize [arg w Member.m_rear_shaft, arg w Member.m_rear_differentialbox,
      Arg.chassis, Arg.m_dir_motor_block, Arg.m_dir_axle]) w
  let w ← invoke Member.m_rear_conicalgear
    (Call.SetTransmissionRatio Parameter.GetRearConicalGearRatio) w
  let w ← Add Member.m_rear_conicalgear w
  let w := construct Member.m_rear_differential ChPrimitive.ChShaftsPlanetary w
  let w ← invoke Member.m_rear_differential
    (Call.Initialize [arg w Member.m_rear_differentialbox,
      Arg.axle 1 ChVehicleSide.LEFT, Arg.axle 1 ChVehicleSide.RIGHT]) w
  let w ← invoke Member.m_rear_differential
    (Call.SetTransmissionRatioOrdinary Parameter.GetRearDifferentialRatio) w
  let w ← Add Member.m_rear_differential w
  let w := construct Member.m_front_differentialbox ChPrimitive.ChShaft w
  let w ← invoke Member.m_front_differentialbox
    (Call.SetInertia Parameter.GetRearDifferentialBoxInertia) w
  let w ← Add Member.m_front_differentialbox w
  let w := construct Member.m_front_conicalgear ChPrimitive.ChShaftsGearboxAngled w
  let w ← invoke Member.m_front_conicalgear
    (Call.Initialize [arg w Member.m_front_shaft, arg w Member.m_front_differentialbox,
      Arg.chassis, Arg.m_dir_motor_block, Arg.m_dir_axle]) w
  let w ← invoke Member.m_front_conicalgear
    (Call.SetTransmissionRatio Parameter.GetFrontConicalGearRatio) w
  let w ← Add Member.m_front_conicalgear w
  let w := construct Member.m_front_differential ChPrimitive.ChShaftsPlanetary w
  let w ← invoke Member.m_front_differential
    (Call.Initialize [arg w Member.m_front_differentialbox,
      Arg.axle 0 ChVehicleSide.LEFT, Arg.axle 0 ChVehicleSide.RIGHT]) w
  let w ← invoke Member.m_front_differential
    (Call.SetTransmissionRatioOrdinary Parameter.GetFrontDifferentialRatio) w
  Add Member.m_front_differential w

/-- A newly constructed driveline in a system that holds nothing yet. -/
def fresh : Assembly where
  driveline := ChShaftsDriveline4WD
  next := 0
  objects := []
  calls := []
  my_system := []

/-- A driveline whose `m_rear_differential` already points to a planetary
primitive (identity 0) when `Initialize` starts. -/
def stale : Assembly where
  driveline := { ChShaftsDriveline4WD with m_rear_differential := some 0 }
  next := 1
  objects := [(0, ChPrimitive.ChShaftsPlanetary)]
  calls := []
  my_system := []

end ChShaftsDriveline4WD

/-! ## `ChShaftsDriveline4WD::GetWheelTorque` -/

/-- What `GetWheelTorque` reads of a `ChWheelID`: the result of `axle()`, an
`int`, and the result of `side()`, a value of the enum type; `none` stands for
a value of that type which is neither `LEFT` nor `RIGHT`. -/
structure ChWheelID where
  axle : Int
  side : Option ChVehicleSide
  deriving DecidableEq, Repr

namespace ChShaftsDriveline4WD

/-- `ChShaftsDriveline4WD::GetWheelTorque(wheel_id)`: the outer `switch` on
`wheel_id.axle()`, the inner ones on `wheel_id.side()`, and the final
`return -1;` reached when no `case` returns.  `GetTorqueReactionOn2` and
`GetTorqueReactionOn3` belong to `ChShaftsPlanetary`; they enter as parameters
giving, for the primitive a differential pointer refers to, the reaction torque
on its second and third member.  Dereferencing a null differential is a fault. -/
def GetWheelTorque (GetTorqueReactionOn2 GetTorqueReactionOn3 : Nat → real)
    (d : chrono.ChShaftsDriveline4WD) (wheel_id : ChWheelID) : Except Fault real :=
  if wheel_id.axle = 0 then
    match wheel_id.side with
    | some ChVehicleSide.LEFT =>
      match d.m_front_differential with
      | none => Except.error (Fault.null_dereference Member.m_front_differential)
      | some p => Except.ok (-GetTorqueReactionOn2 p)
    | some ChVehicleSide.RIGHT =>
      match d.m_front_differential with
      | none => Except.error (Fault.null_dereference Member.m_front_differential)
      | some p => Except.ok (-GetTorqueReactionOn3 p)
    | none => Except.ok (-1)
  else if wheel_id.axle = 1 then
    match wheel_id.side with
    | some ChVehicleSide.LEFT =>
      match d.m_rear_differential with
      | none => Except.error (Fault.null_dereference Member.m_rear_differential)
      | some p => Except.ok (-GetTorqueReactionOn2 p)
    | some ChVehicleSide.RIGHT =>
      match d.m_rear_differential with
      | none => Except.error (Fault.null_dereference Member.m_rear_differential)
      | some p => Except.ok (-GetTorqueReactionOn3 p)
    | none => Except.ok (-1)
  else
    Except.ok (-1)

/-- A driveline whose rear and front differentials point to the primitives 7
and 10. -/
def assembled : chrono.ChShaftsDriveline4WD :=
  { ChShaftsDriveline4WD with m_rear_differential := some 7, m_front_differential := some 10 }

/-- Sample reaction torque on the second member of the primitive `p`. -/
def sampleOn2 (p : Nat) : real := (p : ℚ) + 1 / 2

/-- Sample reaction torque on the third member of the primitive `p`. -/
def sampleOn3 (p : Nat) : real := -(p : ℚ)

end ChShaftsDriveline4WD

/-! ## Theorems -/

/-- Inside the `int` range `wrapInt` is the identity. -/
theorem wrapInt_of_range (z : Int) (hlo : INT_MIN ≤ z) (hhi : z ≤ INT_MAX) :
    wrapInt z = z := by
  unfold wrapInt
  unfold INT_MIN at hlo
  unfold INT_MAX at hhi
  omega

/-- C1. For active (non-negative) counts `n_added` and `n_added_roll` whose row
total is representable in the `int` result type, `GetDOC_d` returns exactly
`3 * n_added + 6 * n_added_roll`, and the container (hence both counts) is the
same after the call. -/
theorem GetDOC_d_rows (c : ChContactContainer)
    (hn : 0 ≤ c.n_added) (hr : 0 ≤ c.n_added_roll)
    (hfit : 3 * c.n_added + 6 * c.n_added_roll ≤ INT_MAX) :
    (ChContactContainer.GetDOC_d c).1 = 3 * c.n_added + 6 * c.n_added_roll ∧
    (ChContactContainer.GetDOC_d c).2.n_added = c.n_added ∧
    (ChContactContainer.GetDOC_d c).2.n_added_roll = c.n_added_roll := by
  refine ⟨?_, rfl, rfl⟩
  unfold INT_MAX at hfit
  have h3 : wrapInt (c.n_added * 3) = c.n_added * 3 :=
    wrapInt_of_range _ (by unfold INT_MIN; omega) (by unfold INT_MAX; omega)
  have h6 : wrapInt (c.n_added_roll * 6) = c.n_added_roll * 6 :=
    wrapInt_of_range _ (by unfold INT_MIN; omega) (by unfold INT_MAX; omega)
  show wrapInt (wrapInt (c.n_added * 3) + wrapInt (c.n_added_roll * 6)) = _
  rw [h3, h6, wrapInt_of_range _ (by unfold INT_MIN; omega) (by unfold INT_MAX; omega)]
  ring

/-- C1 at a container with 4 plain and 5 rolling contacts: 42 rows. -/
theorem GetDOC_d_rows_witness :
    (ChContactContainer.GetDOC_d ⟨4, 5⟩).1 = 3 * 4 + 6 * 5 ∧
    (ChContactContainer.GetDOC_d ⟨4, 5⟩).2.n_added = 4 ∧
    (ChContactContainer.GetDOC_d ⟨4, 5⟩).2.n_added_roll = 5 :=
  GetDOC_d_rows ⟨4, 5⟩ (by decide) (by decide) (by decide)


/-! ### Heap lemmas -/

/-- After `delete p` the pointer value `p` refers to nothing. -/
theorem Heap.isLive_delete_self (h : Heap) (p : Nat) : (h.delete p).isLive p = false := by
  simp [Heap.delete, Heap.isLive, List.any_filter]

/-- The identity handed out next is not live in a well-formed heap. -/
theorem Heap.isLive_next_of_wf (h : Heap) (hwf : h.wf) : h.isLive h.next = false := by
  simp only [Heap.isLive, List.any_eq_false, beq_iff_eq]
  intro o ho heq
  have := hwf o ho
  omega

/-- An identity that is live in a well-formed heap is not the next one. -/
theorem Heap.ne_next_of_isLive (h : Heap) (hwf : h.wf) (p : Nat) (hp : h.isLive p = true) :
    h.next ≠ p := by
  intro heq
  rw [← heq, Heap.isLive_next_of_wf h hwf] at hp
  exact Bool.false_ne_true hp

/-- The object created by `new` is live and has the requested class. -/
theorem Heap.classOf_new (h : Heap) (C : ChSolverParallel) :
    (h.new C).2.classOf h.next = some C ∧ (h.new C).2.isLive h.next = true := by
  simp [Heap.new, Heap.classOf, Heap.isLive]

/-- `new` after `delete p` does not revive `p`. -/
theorem Heap.isLive_new_delete (h : Heap) (p : Nat) (C : ChSolverParallel) (hne : h.next ≠ p) :
    ((h.delete p).new C).2.isLive p = false := by
  simp [Heap.new, Heap.delete, Heap.isLive, List.any_filter, hne]

/-- What `SetSolverType` does for an identifier that has a strategy class: the
identifier is recorded and a new object of that class replaces the deleted one. -/
theorem SetSolverType_of_strategyFor (type : GPUSOLVERTYPE) (C : ChSolverParallel)
    (s : ChLcpSolverParallelDVI) (h : Heap) (hC : strategyFor type = some C) :
    ChLcpSolverParallelDVI.SetSolverType type s h =
      ({ s with solver_type := type,
                solver := some (match s.solver with
                  | some p => h.delete p
                  | none => h).next },
       ((match s.solver with
          | some p => h.delete p
          | none => h).new C).2) := by
  cases type <;> simp [strategyFor] at hC <;> subst hC <;>
    simp [ChLcpSolverParallelDVI.SetSolverType, Heap.new]

/-- Different identifiers are paired with different strategy classes. -/
theorem strategyFor_injective (a b : GPUSOLVERTYPE) (hab : strategyFor a = strategyFor b) :
    a = b := by
  cases a <;> cases b <;> first | rfl | (exact absurd hab (by decide))

/-! ### The claims -/

/-- C2. For every solver state and every method identifier, `SetSolverType`
leaves the tolerance, the global iteration cap and the four per-category caps
(normal, sliding, spinning, bilateral) as they were before the call. -/
theorem SetSolverType_keeps_budgets (type : GPUSOLVERTYPE) (s : ChLcpSolverParallelDVI)
    (h : Heap) :
    (ChLcpSolverParallelDVI.SetSolverType type s h).1.tolerance = s.tolerance ∧
    (ChLcpSolverParallelDVI.SetSolverType type s h).1.max_iteration = s.max_iteration ∧
    (ChLcpSolverParallelDVI.SetSolverType type s h).1.max_iter_normal = s.max_iter_normal ∧
    (ChLcpSolverParallelDVI.SetSolverType type s h).1.max_iter_sliding = s.max_iter_sliding ∧
    (ChLcpSolverParallelDVI.SetSolverType type s h).1.max_iter_spinning = s.max_iter_spinning ∧
    (ChLcpSolverParallelDVI.SetSolverType type s h).1.max_iter_bilateral
      = s.max_iter_bilateral := by
  cases type <;> simp [ChLcpSolverParallelDVI.SetSolverType]

/-- C3. On a freshly constructed solver (strategy object 0, of class
`ChSolverAPGD`, installed and live), `SetSolverType(QUASAI_MINIMUM_RESIDUAL)`
is not rejected: the placeholder is recorded as the selected method, the
installed strategy is deleted, no object is created, and `solver` keeps pointing
to the deleted object. -/
theorem SetSolverType_placeholder_dangling :
    ChLcpSolverParallelDVI.constructed.1.solver = some 0 ∧
    ChLcpSolverParallelDVI.constructed.2.isLive 0 = true ∧
    ChLcpSolverParallelDVI.constructed.2.classOf 0 = some ChSolverParallel.ChSolverAPGD ∧
    (ChLcpSolverParallelDVI.SetSolverType GPUSOLVERTYPE.QUASAI_MINIMUM_RESIDUAL
      ChLcpSolverParallelDVI.constructed.1 ChLcpSolverParallelDVI.constructed.2).1.solver_type
      = GPUSOLVERTYPE.QUASAI_MINIMUM_RESIDUAL ∧
    (ChLcpSolverParallelDVI.SetSolverType GPUSOLVERTYPE.QUASAI_MINIMUM_RESIDUAL
      ChLcpSolverParallelDVI.constructed.1 ChLcpSolverParallelDVI.constructed.2).1.solver
      = some 0 ∧
    (ChLcpSolverParallelDVI.SetSolverType GPUSOLVERTYPE.QUASAI_MINIMUM_RESIDUAL
      ChLcpSolverParallelDVI.constructed.1 ChLcpSolverParallelDVI.constructed.2).2.isLive 0
      = false ∧
    (ChLcpSolverParallelDVI.SetSolverType GPUSOLVERTYPE.QUASAI_MINIMUM_RESIDUAL
      ChLcpSolverParallelDVI.constructed.1 ChLcpSolverParallelDVI.constructed.2).2.live
      = [] := by
  refine ⟨rfl, rfl, rfl, rfl, rfl, rfl, rfl⟩

/-- C4 fails as stated: on a freshly constructed solver, whose tolerance `1e-7`
is valid, `SetTolerance(-1)` is not rejected; the stored tolerance becomes `-1`
and is no longer the prior one. -/
theorem SetTolerance_negative_accepted :
    0 < ChLcpSolverParallelDVI.constructed.1.tolerance ∧
    (-1 : real) ≤ 0 ∧
    (ChLcpSolverParallel.SetTolerance (-1) ChLcpSolverParallelDVI.constructed.1).tolerance
      = -1 ∧
    (ChLcpSolverParallel.SetTolerance (-1) ChLcpSolverParallelDVI.constructed.1).tolerance
      ≠ ChLcpSolverParallelDVI.constructed.1.tolerance := by
  have ht : ChLcpSolverParallelDVI.constructed.1.tolerance = 1e-7 := rfl
  have hs : (ChLcpSolverParallel.SetTolerance (-1)
      ChLcpSolverParallelDVI.constructed.1).tolerance = -1 := rfl
  rw [hs, ht]
  norm_num

/-- C4 as amended. For every solver state and every value `tol`, positive or
not, `SetTolerance(tol)` stores `tol`: afterwards the tolerance is `tol`, and
every other member is as before (the state is the old one with the tolerance
replaced). -/
theorem SetTolerance_stores (tol : real) (s : ChLcpSolverParallelDVI) :
    (ChLcpSolverParallel.SetTolerance tol s).tolerance = tol ∧
    ChLcpSolverParallel.SetTolerance tol s = { s with tolerance := tol } ∧
    (ChLcpSolverParallel.SetTolerance tol s).max_iteration = s.max_iteration ∧
    (ChLcpSolverParallel.SetTolerance tol s).max_iter_normal = s.max_iter_normal ∧
    (ChLcpSolverParallel.SetTolerance tol s).max_iter_sliding = s.max_iter_sliding ∧
    (ChLcpSolverParallel.SetTolerance tol s).max_iter_spinning = s.max_iter_spinning ∧
    (ChLcpSolverParallel.SetTolerance tol s).max_iter_bilateral = s.max_iter_bilateral ∧
    (ChLcpSolverParallel.SetTolerance tol s).solver = s.solver ∧
    (ChLcpSolverParallel.SetTolerance tol s).solver_type = s.solver_type :=
  ⟨rfl, rfl, rfl, rfl, rfl, rfl, rfl, rfl, rfl⟩

/-- C5. Let `type` be one of the nine implemented identifiers and let the solver
have a live strategy object `p` installed, in a well-formed heap.  Then
`SetSolverType(type)` deletes `p`; installs a new object (identity `h.next`,
not live before the call and different from `p`) which is live afterwards and
whose class is the one paired with `type` (SD, GD, CG, CGS, BiCG, BiCGStab,
MinRes, APGD, APGDRS); records `type` as the selected method; and any other
implemented identifier would have installed an object of a different class. -/
theorem SetSolverType_installs (type : GPUSOLVERTYPE) (s : ChLcpSolverParallelDVI)
    (h : Heap) (p : Nat) (hwf : h.wf) (hp : s.solver = some p) (hlive : h.isLive p = true)
    (himpl : type ≠ GPUSOLVERTYPE.QUASAI_MINIMUM_RESIDUAL) :
    (ChLcpSolverParallelDVI.SetSolverType type s h).2.isLive p = false ∧
    (ChLcpSolverParallelDVI.SetSolverType type s h).1.solver = some h.next ∧
    h.isLive h.next = false ∧
    h.next ≠ p ∧
    (ChLcpSolverParallelDVI.SetSolverType type s h).2.isLive h.next = true ∧
    (strategyFor type).isSome = true ∧
    (ChLcpSolverParallelDVI.SetSolverType type s h).2.classOf h.next = strategyFor type ∧
    (ChLcpSolverParallelDVI.SetSolverType type s h).1.solver_type = type ∧
    (∀ other : GPUSOLVERTYPE, other ≠ GPUSOLVERTYPE.QUASAI_MINIMUM_RESIDUAL → other ≠ type →
      (ChLcpSolverParallelDVI.SetSolverType other s h).2.classOf h.next
        ≠ (ChLcpSolverParallelDVI.SetSolverType type s h).2.classOf h.next) := by
  have hne : h.next ≠ p := Heap.ne_next_of_isLive h hwf p hlive
  have key : ∀ (t : GPUSOLVERTYPE) (C : ChSolverParallel), strategyFor t = some C →
      ChLcpSolverParallelDVI.SetSolverType t s h =
        ({ s with solver_type := t, solver := some h.next }, ((h.delete p).new C).2) := by
    intro t C hC
    rw [SetSolverType_of_strategyFor t C s h hC, hp]
    rfl
  have hcls : ∀ (t : GPUSOLVERTYPE) (C : ChSolverParallel), strategyFor t = some C →
      (ChLcpSolverParallelDVI.SetSolverType t s h).2.classOf h.next = some C := by
    intro t C hC
    rw [key t C hC]
    exact (Heap.classOf_new (h.delete p) C).1
  obtain ⟨C, hC⟩ : ∃ C, strategyFor type = some C := by
    cases type <;> simp [strategyFor] at himpl ⊢
  refine ⟨?_, ?_, Heap.isLive_next_of_wf h hwf, hne, ?_, ?_, ?_, ?_, ?_⟩
  · rw [key type C hC]
    exact Heap.isLive_new_delete h p C hne
  · rw [key type C hC]
  · rw [key type C hC]
    exact (Heap.classOf_new (h.delete p) C).2
  · rw [hC]; rfl
  · rw [hcls type C hC, hC]
  · rw [key type C hC]
  · intro other hother hdiff
    obtain ⟨D, hD⟩ : ∃ D, strategyFor other = some D := by
      cases other <;> simp [strategyFor] at hother ⊢
    rw [hcls other D hD, hcls type C hC]
    intro hEq
    apply hdiff
    have hDC : D = C := Option.some.inj hEq
    exact strategyFor_injective other type (by rw [hD, hC, hDC])

/-- C5 on a freshly constructed solver: switching from the constructor's APGD
strategy (object 0) to `CONJUGATE_GRADIENT`. -/
theorem SetSolverType_installs_witness :
    (ChLcpSolverParallelDVI.SetSolverType GPUSOLVERTYPE.CONJUGATE_GRADIENT
      ChLcpSolverParallelDVI.constructed.1 ChLcpSolverParallelDVI.constructed.2).2.isLive 0
      = false ∧
    (ChLcpSolverParallelDVI.SetSolverType GPUSOLVERTYPE.CONJUGATE_GRADIENT
      ChLcpSolverParallelDVI.constructed.1 ChLcpSolverParallelDVI.constructed.2).1.solver
      = some 1 ∧
    (ChLcpSolverParallelDVI.SetSolverType GPUSOLVERTYPE.CONJUGATE_GRADIENT
      ChLcpSolverParallelDVI.constructed.1 ChLcpSolverParallelDVI.constructed.2).2.classOf 1
      = some ChSolverParallel.ChSolverCG ∧
    (ChLcpSolverParallelDVI.SetSolverType GPUSOLVERTYPE.CONJUGATE_GRADIENT
      ChLcpSolverParallelDVI.constructed.1 ChLcpSolverParallelDVI.constructed.2).1.solver_type
      = GPUSOLVERTYPE.CONJUGATE_GRADIENT := by
  have hwf : ChLcpSolverParallelDVI.constructed.2.wf := by
    intro o ho
    have ho' : o ∈ [((0 : Nat), ChSolverParallel.ChSolverAPGD)] := ho
    rw [List.mem_singleton] at ho'
    subst ho'
    exact Nat.zero_lt_one
  have w := SetSolverType_installs GPUSOLVERTYPE.CONJUGATE_GRADIENT
    ChLcpSolverParallelDVI.constructed.1 ChLcpSolverParallelDVI.constructed.2 0
    hwf rfl rfl (by decide)
  exact ⟨w.1, w.2.1, w.2.2.2.2.2.2.1, w.2.2.2.2.2.2.2.1⟩

/-- C6 fails as stated: `SetContactRecoverySpeed` called with not-a-number on a
solver attached to a data manager succeeds and stores not-a-number as the
recovery speed (`fabs` returns it unchanged), and for that stored value the
comparison `0 <= value` is false. -/
theorem SetContactRecoverySpeed_nan_stored :
    ChLcpSolverParallelDVI.SetContactRecoverySpeed fp_real.nan ChLcpSolverParallelDVI.attached
      = some { ChLcpSolverParallelDVI.attached with
          data_container := some { ChSolverSD.twoRows with
            contact_recovery_speed := fp_real.nan } } ∧
    fabs fp_real.nan = fp_real.nan ∧
    fp_real.le (fp_real.num 0) fp_real.nan = false :=
  ⟨rfl, rfl, rfl⟩

/-- C6 as amended. When the solver is attached to a data manager `d`, for every
value `r` other than not-a-number `SetContactRecoverySpeed(r)` succeeds and
stores the absolute value of `r` as the data manager's recovery speed (`|q|`
for a number `q`, plus infinity for either infinity), so that `0 <= value`
holds of it; the solver afterwards is the old one with only that entry of the
data manager replaced, so every other value of the data manager and every
member of the solver is as before. -/
theorem SetContactRecoverySpeed_abs (r : fp_real) (s : ChLcpSolverParallelDVI)
    (d : ChParallelDataManager) (hd : s.data_container = some d) (hr : r ≠ fp_real.nan) :
    ∃ s' d', ChLcpSolverParallelDVI.SetContactRecoverySpeed r s = some s' ∧
      s'.data_container = some d' ∧
      (∀ q : ℚ, r = fp_real.num q → d'.contact_recovery_speed = fp_real.num |q|) ∧
      (∀ b : Bool, r = fp_real.inf b → d'.contact_recovery_speed = fp_real.inf false) ∧
      fp_real.le (fp_real.num 0) d'.contact_recovery_speed = true ∧
      d' = { d with contact_recovery_speed := fabs r } ∧
      s' = { s with data_container := some d' } := by
  refine ⟨{ s with data_container := some { d with contact_recovery_speed := fabs r } },
    { d with contact_recovery_speed := fabs r }, ?_, rfl, ?_, ?_, ?_, rfl, rfl⟩
  · simp [ChLcpSolverParallelDVI.SetContactRecoverySpeed, hd]
  · intro q hq
    subst hq
    rfl
  · intro b hb
    subst hb
    rfl
  · cases r with
    | num q => simp [fabs, fp_real.le, abs_nonneg]
    | inf b => rfl
    | nan => exact absurd rfl hr

/-- C6 as amended, for `r = -3/2` on the attached solver: the call succeeds and
the stored recovery speed is `3/2`. -/
theorem SetContactRecoverySpeed_abs_witness :
    ∃ s' d', ChLcpSolverParallelDVI.SetContactRecoverySpeed (fp_real.num (-3 / 2))
        ChLcpSolverParallelDVI.attached = some s' ∧
      s'.data_container = some d' ∧
      d'.contact_recovery_speed = fp_real.num (3 / 2) ∧
      fp_real.le (fp_real.num 0) d'.contact_recovery_speed = true := by
  obtain ⟨s', d', hs, hd', hnum, -, hle, -, -⟩ :=
    SetContactRecoverySpeed_abs (fp_real.num (-3 / 2)) ChLcpSolverParallelDVI.attached
      ChSolverSD.twoRows rfl (by decide)
  refine ⟨s', d', hs, hd', ?_, hle⟩
  rw [hnum (-3 / 2) rfl]
  norm_num

/-- C7. `Initialize` on a newly constructed driveline stops with a null
dereference of `m_rear_differential`: right after the central differential is
constructed and initialised, `SetTransmissionRatioOrdinary` is invoked on
`m_rear_differential`, which is constructed only later.  Had that member
already pointed to a primitive (identity 0), the run would complete with that
primitive given the central ratio and added to the system in fourth place,
while the central differential constructed by the run (identity 4) receives only
its `Initialize` call and is never added. -/
theorem Initialize_uses_rear_differential_unconstructed :
    ChShaftsDriveline4WD.Initialize ChShaftsDriveline4WD.fresh
      = Except.error (Fault.null_dereference Member.m_rear_differential) ∧
    (∃ w, ChShaftsDriveline4WD.Initialize ChShaftsDriveline4WD.stale = Except.ok w ∧
      w.driveline.m_central_differential = some 4 ∧
      w.my_system = [1, 2, 3, 0, 5, 6, 7, 8, 9, 10] ∧
      w.calls.filter (fun c => c.1 = 4)
        = [(4, Call.Initialize [Arg.object (some 1), Arg.object (some 3),
            Arg.object (some 2)])] ∧
      w.calls.filter (fun c => c.1 = 0)
        = [(0, Call.SetTransmissionRatioOrdinary Parameter.GetCentralDifferentialRatio)]) :=
  ⟨rfl, _, rfl, rfl, rfl, by decide, by decide⟩

/-- C8. `ChSolverSD::Solve` with `num_constraints == 0` returns the solver as it
was, whatever `SolveSD` is (it is not consulted): counters and solution vector
are unchanged.  With `num_constraints != 0` and a data manager `d` attached,
the call succeeds; `total_iteration` becomes its previous value plus the count
returned by `SolveSD(max_iteration, num_constraints, rhs_data, gamma_data)`, the
sum being that of `uint` (modulo `2^32`, hence the exact sum whenever that is
below `2^32`); `current_iteration` equals the new `total_iteration`; and the
solution vector is the one `SolveSD` left. -/
theorem Solve_iteration_accounting
    (SolveSD : uint → uint → List real → List real → uint × List real) (s : ChSolverSD) :
    (s.num_constraints = 0 → ChSolverSD.Solve SolveSD s = some s) ∧
    (s.num_constraints ≠ 0 → ∀ d, s.data_container = some d →
      ∃ s', ChSolverSD.Solve SolveSD s = some s' ∧
        s'.total_iteration = s.total_iteration +
          (SolveSD s.max_iteration s.num_constraints d.host_data.rhs_data
            d.host_data.gamma_data).1 ∧
        s'.total_iteration.val = (s.total_iteration.val +
          (SolveSD s.max_iteration s.num_constraints d.host_data.rhs_data
            d.host_data.gamma_data).1.val) % 4294967296 ∧
        (s.total_iteration.val +
          (SolveSD s.max_iteration s.num_constraints d.host_data.rhs_data
            d.host_data.gamma_data).1.val < 4294967296 →
          s'.total_iteration.val = s.total_iteration.val +
            (SolveSD s.max_iteration s.num_constraints d.host_data.rhs_data
              d.host_data.gamma_data).1.val) ∧
        s'.current_iteration = s'.total_iteration ∧
        s'.data_container = some { d with host_data := { d.host_data with
          gamma_data := (SolveSD s.max_iteration s.num_constraints d.host_data.rhs_data
            d.host_data.gamma_data).2 } } ∧
        s'.num_constraints = s.num_constraints ∧
        s'.max_iteration = s.max_iteration) := by
  constructor
  · intro h0
    simp [ChSolverSD.Solve, h0]
  · intro hne d hd
    refine ⟨{ s with
        data_container := some { d with host_data := { d.host_data with
          gamma_data := (SolveSD s.max_iteration s.num_constraints d.host_data.rhs_data
            d.host_data.gamma_data).2 } }
        total_iteration := s.total_iteration +
          (SolveSD s.max_iteration s.num_constraints d.host_data.rhs_data
            d.host_data.gamma_data).1
        current_iteration := s.total_iteration +
          (SolveSD s.max_iteration s.num_constraints d.host_data.rhs_data
            d.host_data.gamma_data).1 }, ?_, rfl, ?_, ?_, rfl, rfl, rfl, rfl⟩
    · simp [ChSolverSD.Solve, hne, hd]
    · exact Fin.val_add _ _
    · intro hlt
      show (s.total_iteration + _).val = _
      rw [Fin.val_add]
      exact Nat.mod_eq_of_lt hlt

/-- C8 on two solvers: one with no constraints (returned as it is), one with two
rows, budget 100 and 5 iterations so far, for which `sevenSweeps` reports 7 and
the counters become 12. -/
theorem Solve_iteration_accounting_witness :
    ChSolverSD.Solve ChSolverSD.sevenSweeps ⟨some ChSolverSD.twoRows, 0, 100, 5, 3⟩
      = some ⟨some ChSolverSD.twoRows, 0, 100, 5, 3⟩ ∧
    ∃ s', ChSolverSD.Solve ChSolverSD.sevenSweeps ⟨some ChSolverSD.twoRows, 2, 100, 5, 3⟩
        = some s' ∧
      s'.total_iteration = 12 ∧ s'.current_iteration = 12 := by
  refine ⟨(Solve_iteration_accounting ChSolverSD.sevenSweeps
    ⟨some ChSolverSD.twoRows, 0, 100, 5, 3⟩).1 rfl, ?_⟩
  obtain ⟨s', hs, htot, -, -, hcur, -⟩ :=
    (Solve_iteration_accounting ChSolverSD.sevenSweeps
      ⟨some ChSolverSD.twoRows, 2, 100, 5, 3⟩).2 (by decide) ChSolverSD.twoRows rfl
  refine ⟨s', hs, ?_, ?_⟩
  · rw [htot]; decide
  · rw [hcur, htot]; decide

/-- C9. For every `n`, `SetMaxIteration(n)` sets the global cap and the normal,
sliding, spinning and bilateral caps to `n`, so the minimum of the five is `n`;
a per-category cap set just before is overwritten; tolerance, installed strategy
and selected method are unchanged.  Each per-category setter replaces its own
cap and nothing else. -/
theorem SetMaxIteration_sets_every_cap (n : uint) (s : ChLcpSolverParallelDVI) :
    (ChLcpSolverParallelDVI.SetMaxIteration n s).max_iteration = n ∧
    (ChLcpSolverParallelDVI.SetMaxIteration n s).max_iter_normal = n ∧
    (ChLcpSolverParallelDVI.SetMaxIteration n s).max_iter_sliding = n ∧
    (ChLcpSolverParallelDVI.SetMaxIteration n s).max_iter_spinning = n ∧
    (ChLcpSolverParallelDVI.SetMaxIteration n s).max_iter_bilateral = n ∧
    ChLcpSolverParallelDVI.iterationBudget (ChLcpSolverParallelDVI.SetMaxIteration n s) = n ∧
    (∀ k : uint,
      ChLcpSolverParallelDVI.SetMaxIteration n (ChLcpSolverParallelDVI.SetMaxIterationNormal k s)
        = ChLcpSolverParallelDVI.SetMaxIteration n s ∧
      ChLcpSolverParallelDVI.SetMaxIteration n (ChLcpSolverParallelDVI.SetMaxIterationSliding k s)
        = ChLcpSolverParallelDVI.SetMaxIteration n s ∧
      ChLcpSolverParallelDVI.SetMaxIteration n (ChLcpSolverParallelDVI.SetMaxIterationSpinning k s)
        = ChLcpSolverParallelDVI.SetMaxIteration n s ∧
      ChLcpSolverParallelDVI.SetMaxIteration n (ChLcpSolverParallel.SetMaxIterationBilateral k s)
        = ChLcpSolverParallelDVI.SetMaxIteration n s) ∧
    (ChLcpSolverParallelDVI.SetMaxIteration n s).tolerance = s.tolerance ∧
    (ChLcpSolverParallelDVI.SetMaxIteration n s).solver = s.solver ∧
    (ChLcpSolverParallelDVI.SetMaxIteration n s).solver_type = s.solver_type ∧
    (∀ k : uint,
      ChLcpSolverParallelDVI.SetMaxIterationNormal k s = { s with max_iter_normal := k } ∧
      ChLcpSolverParallelDVI.SetMaxIterationSliding k s = { s with max_iter_sliding := k } ∧
      ChLcpSolverParallelDVI.SetMaxIterationSpinning k s = { s with max_iter_spinning := k } ∧
      ChLcpSolverParallel.SetMaxIterationBilateral k s = { s with max_iter_bilateral := k }) := by
  refine ⟨rfl, rfl, rfl, rfl, rfl, ?_, fun k => ⟨rfl, rfl, rfl, rfl⟩, rfl, rfl, rfl,
    fun k => ⟨rfl, rfl, rfl, rfl⟩⟩
  simp [ChLcpSolverParallelDVI.iterationBudget, ChLcpSolverParallelDVI.SetMaxIteration]

/-- C10. Whatever the storage held and whatever strategy objects exist, a
constructed `ChLcpSolverParallelDVI` has tolerance `1e-7` (that is `1/10^7`,
strictly positive), bilateral, normal, sliding and spinning caps 100, global
cap 1000, warm start off, stabilization off, and its `solver` points to a live
object of class `ChSolverAPGD` created by the constructor. -/
theorem ChLcpSolverParallelDVI_constructed_defaults (raw : ChLcpSolverParallelDVI) (h : Heap) :
    (ChLcpSolverParallelDVI.ChLcpSolverParallelDVI raw h).1.tolerance = 1e-7 ∧
    (ChLcpSolverParallelDVI.ChLcpSolverParallelDVI raw h).1.tolerance = 1 / 10000000 ∧
    0 < (ChLcpSolverParallelDVI.ChLcpSolverParallelDVI raw h).1.tolerance ∧
    (ChLcpSolverParallelDVI.ChLcpSolverParallelDVI raw h).1.max_iter_bilateral = 100 ∧
    (ChLcpSolverParallelDVI.ChLcpSolverParallelDVI raw h).1.max_iter_normal = 100 ∧
    (ChLcpSolverParallelDVI.ChLcpSolverParallelDVI raw h).1.max_iter_sliding = 100 ∧
    (ChLcpSolverParallelDVI.ChLcpSolverParallelDVI raw h).1.max_iter_spinning = 100 ∧
    (ChLcpSolverParallelDVI.ChLcpSolverParallelDVI raw h).1.max_iteration = 1000 ∧
    (ChLcpSolverParallelDVI.ChLcpSolverParallelDVI raw h).1.warm_start = false ∧
    (ChLcpSolverParallelDVI.ChLcpSolverParallelDVI raw h).1.do_stab = false ∧
    (ChLcpSolverParallelDVI.ChLcpSolverParallelDVI raw h).1.solver = some h.next ∧
    (ChLcpSolverParallelDVI.ChLcpSolverParallelDVI raw h).2.isLive h.next = true ∧
    (ChLcpSolverParallelDVI.ChLcpSolverParallelDVI raw h).2.classOf h.next
      = some ChSolverParallel.ChSolverAPGD := by
  have ht : (ChLcpSolverParallelDVI.ChLcpSolverParallelDVI raw h).1.tolerance = 1e-7 := rfl
  refine ⟨ht, ?_, ?_, rfl, rfl, rfl, rfl, rfl, rfl, rfl, rfl,
    (Heap.classOf_new h ChSolverParallel.ChSolverAPGD).2,
    (Heap.classOf_new h ChSolverParallel.ChSolverAPGD).1⟩
  · rw [ht]; norm_num
  · rw [ht]; norm_num

/-- C11. `GetWheelTorque` on a driveline whose front and rear differentials
point to primitives `f` and `r` returns a value for every wheel id: for axle 0
the negated reaction torque of the front differential on member 2 (`LEFT`) or
member 3 (`RIGHT`), for axle 1 the negated reaction torque of the rear
differential on member 2 (`LEFT`) or member 3 (`RIGHT`), and `-1` for every
wheel id whose axle is neither 0 nor 1 or whose side is neither `LEFT` nor
`RIGHT`. -/
theorem GetWheelTorque_by_axle_and_side (On2 On3 : Nat → real)
    (d : ChShaftsDriveline4WD) (f r : Nat)
    (hf : d.m_front_differential = some f) (hr : d.m_rear_differential = some r)
    (wheel_id : ChWheelID) :
    (∃ t, ChShaftsDriveline4WD.GetWheelTorque On2 On3 d wheel_id = Except.ok t) ∧
    (wheel_id.axle = 0 → wheel_id.side = some ChVehicleSide.LEFT →
      ChShaftsDriveline4WD.GetWheelTorque On2 On3 d wheel_id = Except.ok (-On2 f)) ∧
    (wheel_id.axle = 0 → wheel_id.side = some ChVehicleSide.RIGHT →
      ChShaftsDriveline4WD.GetWheelTorque On2 On3 d wheel_id = Except.ok (-On3 f)) ∧
    (wheel_id.axle = 1 → wheel_id.side = some ChVehicleSide.LEFT →
      ChShaftsDriveline4WD.GetWheelTorque On2 On3 d wheel_id = Except.ok (-On2 r)) ∧
    (wheel_id.axle = 1 → wheel_id.side = some ChVehicleSide.RIGHT →
      ChShaftsDriveline4WD.GetWheelTorque On2 On3 d wheel_id = Except.ok (-On3 r)) ∧
    ((wheel_id.axle ≠ 0 ∧ wheel_id.axle ≠ 1) ∨ wheel_id.side = none →
      ChShaftsDriveline4WD.GetWheelTorque On2 On3 d wheel_id = Except.ok (-1)) := by
  obtain ⟨axle, side⟩ := wheel_id
  refine ⟨?_, ?_, ?_, ?_, ?_, ?_⟩
  · by_cases h0 : axle = 0
    · rcases side with _ | _ | _ <;>
        simp [ChShaftsDriveline4WD.GetWheelTorque, h0, hf]
    · by_cases h1 : axle = 1
      · rcases side with _ | _ | _ <;>
          simp [ChShaftsDriveline4WD.GetWheelTorque, h1, hr]
      · simp [ChShaftsDriveline4WD.GetWheelTorque, h0, h1]
  · intro h0 hs
    simp only at h0 hs
    simp [ChShaftsDriveline4WD.GetWheelTorque, h0, hs, hf]
  · intro h0 hs
    simp only at h0 hs
    simp [ChShaftsDriveline4WD.GetWheelTorque, h0, hs, hf]
  · intro h1 hs
    simp only at h1 hs
    simp [ChShaftsDriveline4WD.GetWheelTorque, h1, hs, hr]
  · intro h1 hs
    simp only at h1 hs
    simp [ChShaftsDriveline4WD.GetWheelTorque, h1, hs, hr]
  · intro hcase
    simp only at hcase
    rcases hcase with ⟨h0, h1⟩ | hs
    · simp [ChShaftsDriveline4WD.GetWheelTorque, h0, h1]
    · subst hs
      by_cases h0 : axle = 0
      · simp [ChShaftsDriveline4WD.GetWheelTorque, h0]
      · by_cases h1 : axle = 1
        · simp [ChShaftsDriveline4WD.GetWheelTorque, h1]
        · simp [ChShaftsDriveline4WD.GetWheelTorque, h0, h1]

/-- C11 on the driveline `assembled` (front differential 10, rear differential
7): the front left wheel gets minus the sample torque on member 2 of primitive
10, and a wheel on axle 5 gets `-1`. -/
theorem GetWheelTorque_by_axle_and_side_witness :
    ChShaftsDriveline4WD.GetWheelTorque ChShaftsDriveline4WD.sampleOn2
      ChShaftsDriveline4WD.sampleOn3 ChShaftsDriveline4WD.assembled
      ⟨0, some ChVehicleSide.LEFT⟩ = Except.ok (-ChShaftsDriveline4WD.sampleOn2 10) ∧
    ChShaftsDriveline4WD.GetWheelTorque ChShaftsDriveline4WD.sampleOn2
      ChShaftsDriveline4WD.sampleOn3 ChShaftsDriveline4WD.assembled
      ⟨5, some ChVehicleSide.RIGHT⟩ = Except.ok (-1) :=
  ⟨(GetWheelTorque_by_axle_and_side ChShaftsDriveline4WD.sampleOn2
      ChShaftsDriveline4WD.sampleOn3 ChShaftsDriveline4WD.assembled 10 7 rfl rfl
      ⟨0, some ChVehicleSide.LEFT⟩).2.1 rfl rfl,
   (GetWheelTorque_by_axle_and_side ChShaftsDriveline4WD.sampleOn2
      ChShaftsDriveline4WD.sampleOn3 ChShaftsDriveline4WD.assembled 10 7 rfl rfl
      ⟨5, some ChVehicleSide.RIGHT⟩).2.2.2.2.2 (Or.inl ⟨by decide, by decide⟩)⟩

end chrono
